import Mathlib

/-!
Verification of the JoinUs chat server's meeting registry, validation
utilities and socket event handler, as a shallow embedding of the
TypeScript sources (`services/meetingService.ts`, `utils/validation.ts`,
`server.ts`, `models/meeting.ts`).  Timestamps are modelled as natural
numbers, the in-memory `activeMeetings` map and the Firestore `meetings`
collection as association lists, and the asynchronous summary write-back
as a separate operation.
-/

set_option maxHeartbeats 1000000
set_option maxRecDepth 8000

deriving instance DecidableEq for Except

namespace JoinUsChat

/-- A meeting participant (`Participant` in `models/meeting.ts`): user id,
display name, socket id and join timestamp. -/
structure Participant where
  uid : String
  name : String
  socketId : String
  joinedAt : Nat
deriving DecidableEq

/-- A chat message (`ChatMessage` in `models/meeting.ts`). -/
structure ChatMessage where
  id : String
  userId : String
  userName : String
  text : String
  timestamp : Nat
deriving DecidableEq

/-- A meeting room (`Meeting` in `models/meeting.ts`). -/
structure Meeting where
  meetingId : String
  createdBy : String
  createdAt : Nat
  participants : List Participant
  messages : List ChatMessage
  summary : Option String
  isActive : Bool
  maxParticipants : Nat
deriving DecidableEq

/-- One character of the ASCII digit class used by the meeting id pattern. -/
def isDigitChar (c : Char) : Bool := decide ('0' ≤ c) && decide (c ≤ '9')

/-- Anchored matching of exactly `n` digit characters, embedding the
regular expression used by `isValidMeetingId` in `utils/validation.ts`. -/
def matchDigits : Nat → List Char → Bool
  | 0, [] => true
  | 0, _ :: _ => false
  | _ + 1, [] => false
  | n + 1, c :: rest => isDigitChar c && matchDigits n rest

/-- `isValidMeetingId` from `utils/validation.ts`: the whole string matches
a six-digit anchored pattern. -/
def isValidMeetingId (meetingId : String) : Bool :=
  matchDigits 6 meetingId.data

/-- The characters treated as whitespace by JavaScript's `String.trim`
(ECMA-262 WhiteSpace and LineTerminator code points). -/
def jsWhitespaceChars : List Char :=
  [Char.ofNat 0x9, Char.ofNat 0xA, Char.ofNat 0xB, Char.ofNat 0xC,
   Char.ofNat 0xD, Char.ofNat 0x20, Char.ofNat 0xA0, Char.ofNat 0x1680,
   Char.ofNat 0x2000, Char.ofNat 0x2001, Char.ofNat 0x2002, Char.ofNat 0x2003,
   Char.ofNat 0x2004, Char.ofNat 0x2005, Char.ofNat 0x2006, Char.ofNat 0x2007,
   Char.ofNat 0x2008, Char.ofNat 0x2009, Char.ofNat 0x200A, Char.ofNat 0x2028,
   Char.ofNat 0x2029, Char.ofNat 0x202F, Char.ofNat 0x205F, Char.ofNat 0x3000,
   Char.ofNat 0xFEFF]

/-- Whether a character is JavaScript trim whitespace. -/
def jsWhitespace (c : Char) : Bool := jsWhitespaceChars.contains c

/-- JavaScript `String.prototype.trim`: strip whitespace from both ends. -/
def jsTrim (s : String) : String :=
  String.mk (((s.data.dropWhile jsWhitespace).reverse.dropWhile jsWhitespace).reverse)

/-- `isValidUserData` from `utils/validation.ts`: non-empty trimmed user id
and display name. -/
def isValidUserData (uid : String) (name : String) : Bool :=
  decide (0 < (jsTrim uid).length) && decide (0 < (jsTrim name).length)

/-- `isValidMessage` from `utils/validation.ts`: non-empty trimmed text and
raw length at most 1000. -/
def isValidMessage (text : String) : Bool :=
  decide (0 < (jsTrim text).length) && decide (text.length ≤ 1000)

/-- Lookup in an association list, modelling `Map.get` and a Firestore
document read. -/
def lookupA : List (String × Meeting) → String → Option Meeting
  | [], _ => none
  | (k, v) :: rest, key => if k = key then some v else lookupA rest key

/-- Insert or overwrite, modelling `Map.set` and Firestore document `set`. -/
def setA : List (String × Meeting) → String → Meeting → List (String × Meeting)
  | [], key, v => [(key, v)]
  | (k, w) :: rest, key, v =>
    if k = key then (key, v) :: rest else (k, w) :: setA rest key v

/-- Deletion, modelling `Map.delete`. -/
def eraseA : List (String × Meeting) → String → List (String × Meeting)
  | [], _ => []
  | (k, w) :: rest, key =>
    if k = key then eraseA rest key else (k, w) :: eraseA rest key

/-- The server state: the in-memory `activeMeetings` cache and the
Firestore `meetings` collection. -/
structure ServerState where
  cache : List (String × Meeting)
  store : List (String × Meeting)
deriving DecidableEq

/-- Result of `getMeetingById`: the meeting found (if any), the state after
the call (the cache may have been rehydrated), and whether the durable
store was read. -/
structure GetResult where
  meeting : Option Meeting
  state : ServerState
  storeRead : Bool
deriving DecidableEq

/-- Firestore `update` on one document: modify the named fields of an
existing document (no effect when the document is missing). -/
def storeUpdate (st : List (String × Meeting)) (key : String)
    (f : Meeting → Meeting) : List (String × Meeting) :=
  match lookupA st key with
  | some m => setA st key (f m)
  | none => st

/-- `getMeetingById` from `services/meetingService.ts`: reject malformed
ids without touching storage, then cache-first lookup with Firestore
fallback and cache rehydration. -/
def getMeetingById (s : ServerState) (meetingId : String) : GetResult :=
  if isValidMeetingId meetingId = true then
    match lookupA s.cache meetingId with
    | some m => ⟨some m, s, false⟩
    | none =>
      match lookupA s.store meetingId with
      | some m => ⟨some m, { s with cache := setA s.cache meetingId m }, true⟩
      | none => ⟨none, s, true⟩
  else ⟨none, s, false⟩

/-- Payload of a join request (`JoinMeetingData` in `models/meeting.ts`). -/
structure JoinMeetingData where
  meetingId : String
  uid : String
  name : String
  socketId : String
deriving DecidableEq

/-- Update the socket id of the first participant whose uid matches: the
effect of `existingParticipant.socketId = data.socketId` through the
reference returned by `find`. -/
def updFirstSocket : List Participant → String → String → List Participant
  | [], _, _ => []
  | p :: rest, uid, sid =>
    if p.uid = uid then { p with socketId := sid } :: rest
    else p :: updFirstSocket rest uid sid

/-- The participant list after a reconnect by `uid`: every participant
keeps all fields, except that the matching uid's socket id becomes `sid`.
Equal to `updFirstSocket` whenever uids are unique (`updFirst_eq_map`). -/
def rejoinUpdate (l : List Participant) (uid sid : String) : List Participant :=
  l.map (fun p => if p.uid = uid then { p with socketId := sid } else p)

/-- The capacity error message built by `joinMeeting`. -/
def fullErrorMsg (maxP : Nat) : String :=
  "Meeting is full (max " ++ toString maxP ++ " participants)"

/-- `joinMeeting` from `services/meetingService.ts`. -/
def joinMeeting (s : ServerState) (d : JoinMeetingData) (now : Nat) :
    Except String Meeting × ServerState :=
  match (getMeetingById s d.meetingId).meeting with
  | none => (Except.error "Meeting not found", (getMeetingById s d.meetingId).state)
  | some m =>
    if m.isActive = false then
      (Except.error "Meeting is no longer active", (getMeetingById s d.meetingId).state)
    else
      match m.participants.find? (fun p => p.uid == d.uid) with
      | some _ =>
        (Except.ok { m with participants := updFirstSocket m.participants d.uid d.socketId },
          { cache := setA (getMeetingById s d.meetingId).state.cache d.meetingId
              { m with participants := updFirstSocket m.participants d.uid d.socketId },
            store := storeUpdate (getMeetingById s d.meetingId).state.store d.meetingId
              (fun sm => { sm with
                participants := updFirstSocket m.participants d.uid d.socketId }) })
      | none =>
        if m.maxParticipants ≤ m.participants.length then
          (Except.error (fullErrorMsg m.maxParticipants),
            (getMeetingById s d.meetingId).state)
        else
          (Except.ok { m with participants :=
              m.participants ++ [⟨d.uid, d.name, d.socketId, now⟩] },
            { cache := setA (getMeetingById s d.meetingId).state.cache d.meetingId
                { m with participants := m.participants ++ [⟨d.uid, d.name, d.socketId, now⟩] },
              store := storeUpdate (getMeetingById s d.meetingId).state.store d.meetingId
                (fun sm => { sm with
                  participants := m.participants ++ [⟨d.uid, d.name, d.socketId, now⟩] }) })

/-- `endMeeting` from `services/meetingService.ts`; its detached summary
write-back is modelled separately as `Op.opSummaryArrives`. -/
def endMeeting (s : ServerState) (meetingId : String) (uid : String) :
    Except String Unit × ServerState :=
  match (getMeetingById s meetingId).meeting with
  | none => (Except.error "Meeting not found", (getMeetingById s meetingId).state)
  | some m =>
    if m.createdBy = uid then
      (Except.ok (),
        { cache := eraseA (getMeetingById s meetingId).state.cache meetingId,
          store := storeUpdate (getMeetingById s meetingId).state.store meetingId
            (fun sm => { sm with isActive := false }) })
    else (Except.error "Only the host can end the meeting", (getMeetingById s meetingId).state)

/-- `leaveMeeting` from `services/meetingService.ts`: remove the matching
socket, deactivate and evict when the room empties, persist participants
and active flag unconditionally. -/
def leaveMeeting (s : ServerState) (meetingId : String) (socketId : String) :
    ServerState :=
  match (getMeetingById s meetingId).meeting with
  | none => (getMeetingById s meetingId).state
  | some m =>
    { cache :=
        if (m.participants.filter (fun p => !(p.socketId == socketId))).length = 0 then
          eraseA (getMeetingById s meetingId).state.cache meetingId
        else
          setA (getMeetingById s meetingId).state.cache meetingId
            { m with
              participants := m.participants.filter (fun p => !(p.socketId == socketId)),
              isActive :=
                if (m.participants.filter (fun p => !(p.socketId == socketId))).length = 0
                then false else m.isActive },
      store := storeUpdate (getMeetingById s meetingId).state.store meetingId
        (fun sm => { sm with
          participants := m.participants.filter (fun p => !(p.socketId == socketId)),
          isActive :=
            if (m.participants.filter (fun p => !(p.socketId == socketId))).length = 0
            then false else m.isActive }) }

/-- `addMessage` from `services/meetingService.ts`: note the source performs
no `isActive` check before appending. -/
def addMessage (s : ServerState) (meetingId : String) (message : ChatMessage) :
    Except String Unit × ServerState :=
  match (getMeetingById s meetingId).meeting with
  | none => (Except.error "Meeting not found", (getMeetingById s meetingId).state)
  | some m =>
    (Except.ok (),
      { cache := setA (getMeetingById s meetingId).state.cache meetingId
          { m with messages := m.messages ++ [message] },
        store := storeUpdate (getMeetingById s meetingId).state.store meetingId
          (fun sm => { sm with messages := m.messages ++ [message] }) })

/-- Creation payload (`MeetingCreateData` in `models/meeting.ts`). -/
structure MeetingCreateData where
  createdBy : String
  creatorName : String
deriving DecidableEq

/-- `createMeeting` from `services/meetingService.ts`, with the stream of
candidate ids produced by `generateMeetingId` passed explicitly; collision
checking retries down the list, and `none` is returned when the candidate
list is exhausted. -/
def createMeeting (d : MeetingCreateData) (now : Nat) :
    ServerState → List String → Option Meeting × ServerState
  | s, [] => (none, s)
  | s, c :: rest =>
    match (getMeetingById s c).meeting with
    | some _ => createMeeting d now (getMeetingById s c).state rest
    | none =>
      (some ⟨c, d.createdBy, now, [], [], none, true, 10⟩,
        { cache := setA (getMeetingById s c).state.cache c
            ⟨c, d.createdBy, now, [], [], none, true, 10⟩,
          store := setA (getMeetingById s c).state.store c
            ⟨c, d.createdBy, now, [], [], none, true, 10⟩ })

/-- `getParticipants` from `services/meetingService.ts`. -/
def getParticipants (s : ServerState) (meetingId : String) :
    List Participant × ServerState :=
  match (getMeetingById s meetingId).meeting with
  | some m => (m.participants, (getMeetingById s meetingId).state)
  | none => ([], (getMeetingById s meetingId).state)

/-- Events emitted by the socket handlers in `server.ts`. -/
inductive SocketEvent where
  | errorEvt (message : String)
  | joinErrorEvt (message : String)
  | joinedMeetingEvt (meetingId : String) (participants : List Participant)
      (messages : List ChatMessage) (createdBy : String)
  | userJoinedEvt (uid : String) (name : String) (participantCount : Nat)
deriving DecidableEq

/-- Where an emission is delivered: to the handling socket itself, or to the
rest of the room. -/
inductive EmitTarget where
  | toSelf
  | toRoom
deriving DecidableEq

/-- Payload of the inbound `join-meeting` event. -/
structure JoinEventData where
  meetingId : String
  uid : String
  name : String
deriving DecidableEq

/-- The `join-meeting` Socket.IO handler in `server.ts`: validate the input,
call `joinMeeting`, and emit the reply events. -/
def handleJoinMeeting (s : ServerState) (socketId : String) (d : JoinEventData)
    (now : Nat) : List (EmitTarget × SocketEvent) × ServerState :=
  if (isValidMeetingId d.meetingId && isValidUserData d.uid d.name) = false then
    ([(EmitTarget.toSelf, SocketEvent.errorEvt "Invalid meeting data")], s)
  else
    match joinMeeting s ⟨d.meetingId, d.uid, d.name, socketId⟩ now with
    | (Except.error e, s2) =>
      ([(EmitTarget.toSelf, SocketEvent.joinErrorEvt e)], s2)
    | (Except.ok m, s2) =>
      ([(EmitTarget.toSelf,
          SocketEvent.joinedMeetingEvt d.meetingId m.participants m.messages m.createdBy),
        (EmitTarget.toRoom,
          SocketEvent.userJoinedEvt d.uid d.name m.participants.length)], s2)

/-- The events a list of emissions delivers to the handling socket itself. -/
def selfEvents : List (EmitTarget × SocketEvent) → List SocketEvent
  | [] => []
  | (EmitTarget.toSelf, e) :: rest => e :: selfEvents rest
  | (EmitTarget.toRoom, _) :: rest => selfEvents rest

/-- Whether an event is one of the two reply events the specification names
for the joining connection. -/
def isJoinReply : SocketEvent → Bool
  | SocketEvent.joinErrorEvt _ => true
  | SocketEvent.joinedMeetingEvt _ _ _ _ => true
  | _ => false

/-- The registry operations that can run against a state, including bare
cache rehydration (`opGet`) and the detached summary write-back
(`opSummaryArrives`). -/
inductive Op where
  | opJoin (d : JoinMeetingData) (now : Nat)
  | opLeave (meetingId : String) (socketId : String)
  | opAddMessage (meetingId : String) (message : ChatMessage)
  | opEnd (meetingId : String) (uid : String)
  | opGet (meetingId : String)
  | opCreate (d : MeetingCreateData) (now : Nat) (candidates : List String)
  | opSummaryArrives (meetingId : String) (text : String)

/-- State effect of one operation. -/
def applyOp (s : ServerState) : Op → ServerState
  | Op.opJoin d now => (joinMeeting s d now).2
  | Op.opLeave mid sid => leaveMeeting s mid sid
  | Op.opAddMessage mid msg => (addMessage s mid msg).2
  | Op.opEnd mid uid => (endMeeting s mid uid).2
  | Op.opGet mid => (getMeetingById s mid).state
  | Op.opCreate d now cs => (createMeeting d now s cs).2
  | Op.opSummaryArrives mid t =>
    { s with store := storeUpdate s.store mid (fun m => { m with summary := some t }) }

/-- Run a sequence of operations. -/
def runOps : ServerState → List Op → ServerState
  | s, [] => s
  | s, op :: rest => runOps (applyOp s op) rest

/-- A meeting id that is durably deactivated: well-formed, present in the
store with `isActive = false`, and any cached copy also inactive. -/
def InactiveLocked (s : ServerState) (mid : String) : Prop :=
  isValidMeetingId mid = true ∧
  (∃ m, lookupA s.store mid = some m ∧ m.isActive = false) ∧
  (∀ m, lookupA s.cache mid = some m → m.isActive = false)

/-- The frame-relevant fields of a meeting: everything except the
participant list. -/
def frameOf (m : Meeting) :
    List ChatMessage × String × Nat × Nat × Bool × Option String :=
  (m.messages, m.createdBy, m.createdAt, m.maxParticipants, m.isActive, m.summary)

/-- Sample participant used by concrete witnesses. -/
def pAlice : Participant := ⟨"alice", "Alice", "sockA", 0⟩

/-- Sample message used by concrete witnesses. -/
def msgHi : ChatMessage := ⟨"1-bob", "bob", "Bob", "hi", 1⟩

/-- Sample message used by concrete witnesses. -/
def msgYo : ChatMessage := ⟨"2-carol", "carol", "Carol", "yo", 2⟩

/-- A deactivated meeting, cached and stored, for concrete witnesses. -/
def mInactive : Meeting := ⟨"222222", "carol", 0, [pAlice], [msgHi], none, false, 10⟩

/-- State holding `mInactive` in cache and store. -/
def sInactive : ServerState := ⟨[("222222", mInactive)], [("222222", mInactive)]⟩

/-- An active single-participant meeting for concrete witnesses. -/
def mSolo : Meeting := ⟨"111111", "alice", 0, [pAlice], [msgHi], none, true, 10⟩

/-- State holding `mSolo` in cache and store. -/
def sSolo : ServerState := ⟨[("111111", mSolo)], [("111111", mSolo)]⟩

/-- Ten distinct participants, filling a meeting to capacity. -/
def tenParts : List Participant :=
  [⟨"u0", "n0", "s0", 0⟩, ⟨"u1", "n1", "s1", 0⟩, ⟨"u2", "n2", "s2", 0⟩,
   ⟨"u3", "n3", "s3", 0⟩, ⟨"u4", "n4", "s4", 0⟩, ⟨"u5", "n5", "s5", 0⟩,
   ⟨"u6", "n6", "s6", 0⟩, ⟨"u7", "n7", "s7", 0⟩, ⟨"u8", "n8", "s8", 0⟩,
   ⟨"u9", "n9", "s9", 0⟩]

/-- A full (ten-participant) active meeting for concrete witnesses. -/
def mFull : Meeting := ⟨"333333", "u0", 0, tenParts, [], none, true, 10⟩

/-- State holding `mFull` in cache and store. -/
def sFull : ServerState := ⟨[("333333", mFull)], [("333333", mFull)]⟩

/-- An active meeting owned by alice for concrete witnesses. -/
def mOwned : Meeting := ⟨"444444", "alice", 0, [pAlice], [msgHi], none, true, 10⟩

/-- State holding `mOwned` in cache and store. -/
def sOwned : ServerState := ⟨[("444444", mOwned)], [("444444", mOwned)]⟩

/-- State after creating meeting 123456 from an empty state. -/
def c1s1 : ServerState := (createMeeting ⟨"alice", "Alice"⟩ 0 ⟨[], []⟩ ["123456"]).2

/-- State after the creator ends meeting 123456: evicted from cache, still
stored with `isActive = false`. -/
def c1s2 : ServerState := (endMeeting c1s1 "123456" "alice").2

/-- State after creating meeting 654321 from an empty state. -/
def c2s1 : ServerState := (createMeeting ⟨"erin", "Erin"⟩ 0 ⟨[], []⟩ ["654321"]).2

/-- State after the creator ends meeting 654321: evicted from cache, still
stored with `isActive = false`. -/
def c2s2 : ServerState := (endMeeting c2s1 "654321" "erin").2

theorem lookupA_setA (l : List (String × Meeting)) (k k2 : String) (v : Meeting) :
    lookupA (setA l k v) k2 = if k = k2 then some v else lookupA l k2 := by
  induction l with
  | nil => simp [setA, lookupA]
  | cons hd tl ih =>
    obtain ⟨a, b⟩ := hd
    by_cases hak : a = k
    · subst hak
      by_cases hk2 : a = k2 <;> simp [setA, lookupA, hk2]
    · by_cases hk2 : a = k2
      · subst hk2
        have hka : ¬ k = a := fun h => hak h.symm
        simp [setA, lookupA, hak, hka]
      · simp [setA, lookupA, hak, hk2, ih]

theorem lookupA_eraseA (l : List (String × Meeting)) (k k2 : String) :
    lookupA (eraseA l k) k2 = if k = k2 then none else lookupA l k2 := by
  induction l with
  | nil => simp [eraseA, lookupA]
  | cons hd tl ih =>
    obtain ⟨a, b⟩ := hd
    by_cases hak : a = k
    · subst hak
      by_cases hk2 : a = k2
      · subst hk2
        simp [eraseA, lookupA, ih]
      · simp [eraseA, lookupA, ih, hk2]
    · by_cases hk2 : a = k2
      · subst hk2
        have hka : ¬ k = a := fun h => hak h.symm
        simp [eraseA, lookupA, hak, hka]
      · simp [eraseA, lookupA, hak, hk2, ih]

theorem lookupA_storeUpdate (st : List (String × Meeting)) (k : String)
    (f : Meeting → Meeting) (k2 : String) :
    lookupA (storeUpdate st k f) k2 =
      if k = k2 then Option.map f (lookupA st k) else lookupA st k2 := by
  unfold storeUpdate
  cases h : lookupA st k with
  | none =>
    by_cases hk : k = k2
    · subst hk
      simp [h]
    · simp [hk]
  | some m => simp [lookupA_setA, h]

theorem get_of_invalid (s : ServerState) {k : String}
    (hv : isValidMeetingId k = false) : getMeetingById s k = ⟨none, s, false⟩ := by
  simp [getMeetingById, hv]

theorem get_of_cache {s : ServerState} {k : String} {m : Meeting}
    (hv : isValidMeetingId k = true) (hc : lookupA s.cache k = some m) :
    getMeetingById s k = ⟨some m, s, false⟩ := by
  simp [getMeetingById, hv, hc]

theorem get_of_store {s : ServerState} {k : String} {m : Meeting}
    (hv : isValidMeetingId k = true) (hc : lookupA s.cache k = none)
    (hs : lookupA s.store k = some m) :
    getMeetingById s k = ⟨some m, { s with cache := setA s.cache k m }, true⟩ := by
  simp [getMeetingById, hv, hc, hs]

theorem get_of_miss {s : ServerState} {k : String}
    (hv : isValidMeetingId k = true) (hc : lookupA s.cache k = none)
    (hs : lookupA s.store k = none) : getMeetingById s k = ⟨none, s, true⟩ := by
  simp [getMeetingById, hv, hc, hs]

theorem get_cases (s : ServerState) (k : String) :
    (isValidMeetingId k = false ∧ getMeetingById s k = ⟨none, s, false⟩) ∨
    (isValidMeetingId k = true ∧ ∃ m, lookupA s.cache k = some m ∧
        getMeetingById s k = ⟨some m, s, false⟩) ∨
    (isValidMeetingId k = true ∧ lookupA s.cache k = none ∧ ∃ m,
        lookupA s.store k = some m ∧
        getMeetingById s k = ⟨some m, { s with cache := setA s.cache k m }, true⟩) ∨
    (isValidMeetingId k = true ∧ lookupA s.cache k = none ∧
        lookupA s.store k = none ∧ getMeetingById s k = ⟨none, s, true⟩) := by
  by_cases hv : isValidMeetingId k = true
  · cases hc : lookupA s.cache k with
    | some m => exact Or.inr (Or.inl ⟨hv, m, rfl, get_of_cache hv hc⟩)
    | none =>
      cases hs : lookupA s.store k with
      | some m => exact Or.inr (Or.inr (Or.inl ⟨hv, rfl, m, rfl, get_of_store hv hc hs⟩))
      | none => exact Or.inr (Or.inr (Or.inr ⟨hv, rfl, rfl, get_of_miss hv hc hs⟩))
  · exact Or.inl ⟨Bool.not_eq_true _ ▸ (by simpa using hv), get_of_invalid s (by simpa using hv)⟩

theorem get_store_eq (s : ServerState) (k : String) :
    (getMeetingById s k).state.store = s.store := by
  rcases get_cases s k with ⟨_, hg⟩ | ⟨_, m, _, hg⟩ | ⟨_, _, m, _, hg⟩ | ⟨_, _, _, hg⟩ <;>
    rw [hg]

theorem get_none_state {s : ServerState} {k : String}
    (h : (getMeetingById s k).meeting = none) : (getMeetingById s k).state = s := by
  rcases get_cases s k with ⟨_, hg⟩ | ⟨_, m, _, hg⟩ | ⟨_, _, m, _, hg⟩ | ⟨_, _, _, hg⟩ <;>
    rw [hg] <;> rw [hg] at h <;> simp_all

theorem get_some_valid {s : ServerState} {k : String} {m : Meeting}
    (h : (getMeetingById s k).meeting = some m) : isValidMeetingId k = true := by
  rcases get_cases s k with ⟨hv, hg⟩ | ⟨hv, m2, _, hg⟩ | ⟨hv, _, m2, _, hg⟩ | ⟨hv, _, _, hg⟩ <;>
    rw [hg] at h <;> simp_all

theorem get_some_sources {s : ServerState} {k : String} {m : Meeting}
    (h : (getMeetingById s k).meeting = some m) :
    lookupA s.cache k = some m ∨
      (lookupA s.cache k = none ∧ lookupA s.store k = some m) := by
  rcases get_cases s k with ⟨hv, hg⟩ | ⟨hv, m2, hc, hg⟩ | ⟨hv, hc, m2, hs, hg⟩ | ⟨hv, hc, hs, hg⟩ <;>
    rw [hg] at h <;> simp_all

theorem get_congr (s1 s2 : ServerState) (mid : String)
    (hc : lookupA s1.cache mid = lookupA s2.cache mid)
    (hs : lookupA s1.store mid = lookupA s2.store mid) :
    (getMeetingById s1 mid).meeting = (getMeetingById s2 mid).meeting := by
  by_cases hv : isValidMeetingId mid = true
  · cases h1 : lookupA s2.cache mid with
    | some m => rw [get_of_cache hv (hc.trans h1), get_of_cache hv h1]
    | none =>
      cases h2 : lookupA s2.store mid with
      | some m =>
        rw [get_of_store hv (hc.trans h1) (hs.trans h2), get_of_store hv h1 h2]
      | none =>
        rw [get_of_miss hv (hc.trans h1) (hs.trans h2), get_of_miss hv h1 h2]
  · rw [get_of_invalid s1 (by simpa using hv), get_of_invalid s2 (by simpa using hv)]

theorem get_after_get (s : ServerState) (k mid : String) :
    (getMeetingById (getMeetingById s k).state mid).meeting =
      (getMeetingById s mid).meeting := by
  rcases get_cases s k with ⟨_, hg⟩ | ⟨_, m, _, hg⟩ | ⟨hv, hc, m, hs, hg⟩ | ⟨_, _, _, hg⟩
  · rw [hg]
  · rw [hg]
  · rw [hg]
    by_cases hmk : k = mid
    · subst hmk
      have h1 : lookupA ({ s with cache := setA s.cache k m } : ServerState).cache k = some m := by
        simp [lookupA_setA]
      rw [get_of_cache hv h1, get_of_store hv hc hs]
    · exact get_congr _ _ _ (by simp [lookupA_setA, hmk]) rfl
  · rw [hg]

theorem get_some_again {s : ServerState} {k : String} {m : Meeting}
    (h : (getMeetingById s k).meeting = some m) :
    getMeetingById (getMeetingById s k).state k =
      ⟨some m, (getMeetingById s k).state, false⟩ := by
  rcases get_cases s k with ⟨hv, hg⟩ | ⟨hv, m2, hc, hg⟩ | ⟨hv, hc, m2, hs, hg⟩ | ⟨hv, hc, hs, hg⟩
  · rw [hg] at h ⊢
    simp at h
  · rw [hg] at h ⊢
    simp at h
    subst h
    refine get_of_cache hv ?_
    exact hc
  · rw [hg] at h ⊢
    simp at h
    subst h
    refine get_of_cache hv ?_
    simp [lookupA_setA]
  · rw [hg] at h ⊢
    simp at h

theorem joinMeeting_none {s : ServerState} {d : JoinMeetingData} (now : Nat)
    (hg : (getMeetingById s d.meetingId).meeting = none) :
    joinMeeting s d now =
      (Except.error "Meeting not found", (getMeetingById s d.meetingId).state) := by
  unfold joinMeeting
  rw [hg]

theorem joinMeeting_inactive {s : ServerState} {d : JoinMeetingData} (now : Nat)
    {m : Meeting} (hg : (getMeetingById s d.meetingId).meeting = some m)
    (ha : m.isActive = false) :
    joinMeeting s d now =
      (Except.error "Meeting is no longer active", (getMeetingById s d.meetingId).state) := by
  unfold joinMeeting
  rw [hg]
  simp [ha]

theorem joinMeeting_rejoin {s : ServerState} {d : JoinMeetingData} (now : Nat)
    {m : Meeting} {q : Participant}
    (hg : (getMeetingById s d.meetingId).meeting = some m)
    (ha : m.isActive = true)
    (hf : m.participants.find? (fun p => p.uid == d.uid) = some q) :
    joinMeeting s d now =
      (Except.ok { m with participants := updFirstSocket m.participants d.uid d.socketId },
        { cache := setA (getMeetingById s d.meetingId).state.cache d.meetingId
            { m with participants := updFirstSocket m.participants d.uid d.socketId },
          store := storeUpdate (getMeetingById s d.meetingId).state.store d.meetingId
            (fun sm => { sm with
              participants := updFirstSocket m.participants d.uid d.socketId }) }) := by
  unfold joinMeeting
  rw [hg]
  simp [ha, hf]

theorem joinMeeting_full {s : ServerState} {d : JoinMeetingData} (now : Nat)
    {m : Meeting} (hg : (getMeetingById s d.meetingId).meeting = some m)
    (ha : m.isActive = true)
    (hf : m.participants.find? (fun p => p.uid == d.uid) = none)
    (hlen : m.maxParticipants ≤ m.participants.length) :
    joinMeeting s d now =
      (Except.error (fullErrorMsg m.maxParticipants),
        (getMeetingById s d.meetingId).state) := by
  unfold joinMeeting
  rw [hg]
  simp [ha, hf, hlen]

theorem joinMeeting_append {s : ServerState} {d : JoinMeetingData} (now : Nat)
    {m : Meeting} (hg : (getMeetingById s d.meetingId).meeting = some m)
    (ha : m.isActive = true)
    (hf : m.participants.find? (fun p => p.uid == d.uid) = none)
    (hlen : ¬ m.maxParticipants ≤ m.participants.length) :
    joinMeeting s d now =
      (Except.ok { m with participants :=
          m.participants ++ [⟨d.uid, d.name, d.socketId, now⟩] },
        { cache := setA (getMeetingById s d.meetingId).state.cache d.meetingId
            { m with participants := m.participants ++ [⟨d.uid, d.name, d.socketId, now⟩] },
          store := storeUpdate (getMeetingById s d.meetingId).state.store d.meetingId
            (fun sm => { sm with
              participants := m.participants ++ [⟨d.uid, d.name, d.socketId, now⟩] }) }) := by
  unfold joinMeeting
  rw [hg]
  simp [ha, hf, hlen]

theorem endMeeting_none {s : ServerState} {mid : String} (uid : String)
    (hg : (getMeetingById s mid).meeting = none) :
    endMeeting s mid uid =
      (Except.error "Meeting not found", (getMeetingById s mid).state) := by
  unfold endMeeting
  rw [hg]

theorem endMeeting_forbidden {s : ServerState} {mid uid : String} {m : Meeting}
    (hg : (getMeetingById s mid).meeting = some m)
    (hown : ¬ m.createdBy = uid) :
    endMeeting s mid uid =
      (Except.error "Only the host can end the meeting", (getMeetingById s mid).state) := by
  unfold endMeeting
  rw [hg]
  simp [hown]

theorem endMeeting_ok {s : ServerState} {mid uid : String} {m : Meeting}
    (hg : (getMeetingById s mid).meeting = some m)
    (hown : m.createdBy = uid) :
    endMeeting s mid uid =
      (Except.ok (),
        { cache := eraseA (getMeetingById s mid).state.cache mid,
          store := storeUpdate (getMeetingById s mid).state.store mid
            (fun sm => { sm with isActive := false }) }) := by
  unfold endMeeting
  rw [hg]
  simp [hown]

theorem leaveMeeting_none {s : ServerState} {mid sid : String}
    (hg : (getMeetingById s mid).meeting = none) :
    leaveMeeting s mid sid = (getMeetingById s mid).state := by
  unfold leaveMeeting
  rw [hg]

theorem leaveMeeting_some {s : ServerState} {mid sid : String} {m : Meeting}
    (hg : (getMeetingById s mid).meeting = some m) :
    leaveMeeting s mid sid =
      { cache :=
          if (m.participants.filter (fun p => !(p.socketId == sid))).length = 0 then
            eraseA (getMeetingById s mid).state.cache mid
          else
            setA (getMeetingById s mid).state.cache mid
              { m with
                participants := m.participants.filter (fun p => !(p.socketId == sid)),
                isActive :=
                  if (m.participants.filter (fun p => !(p.socketId == sid))).length = 0
                  then false else m.isActive },
        store := storeUpdate (getMeetingById s mid).state.store mid
          (fun sm => { sm with
            participants := m.participants.filter (fun p => !(p.socketId == sid)),
            isActive :=
              if (m.participants.filter (fun p => !(p.socketId == sid))).length = 0
              then false else m.isActive }) } := by
  unfold leaveMeeting
  rw [hg]

theorem addMessage_none {s : ServerState} {mid : String} (msg : ChatMessage)
    (hg : (getMeetingById s mid).meeting = none) :
    addMessage s mid msg =
      (Except.error "Meeting not found", (getMeetingById s mid).state) := by
  unfold addMessage
  rw [hg]

theorem addMessage_some {s : ServerState} {mid : String} (msg : ChatMessage)
    {m : Meeting} (hg : (getMeetingById s mid).meeting = some m) :
    addMessage s mid msg =
      (Except.ok (),
        { cache := setA (getMeetingById s mid).state.cache mid
            { m with messages := m.messages ++ [msg] },
          store := storeUpdate (getMeetingById s mid).state.store mid
            (fun sm => { sm with messages := m.messages ++ [msg] }) }) := by
  unfold addMessage
  rw [hg]

theorem lookupA_setA_self (l : List (String × Meeting)) (k : String) (v : Meeting) :
    lookupA (setA l k v) k = some v := by
  rw [lookupA_setA]
  simp

theorem lookupA_setA_ne (l : List (String × Meeting)) {k k2 : String}
    (h : ¬ k = k2) (v : Meeting) : lookupA (setA l k v) k2 = lookupA l k2 := by
  rw [lookupA_setA]
  simp [h]

theorem lookupA_eraseA_self (l : List (String × Meeting)) (k : String) :
    lookupA (eraseA l k) k = none := by
  rw [lookupA_eraseA]
  simp

theorem lookupA_eraseA_ne (l : List (String × Meeting)) {k k2 : String}
    (h : ¬ k = k2) : lookupA (eraseA l k) k2 = lookupA l k2 := by
  rw [lookupA_eraseA]
  simp [h]

theorem lookupA_storeUpdate_self (st : List (String × Meeting)) (k : String)
    (f : Meeting → Meeting) :
    lookupA (storeUpdate st k f) k = Option.map f (lookupA st k) := by
  rw [lookupA_storeUpdate]
  simp

theorem lookupA_storeUpdate_ne (st : List (String × Meeting)) {k k2 : String}
    (h : ¬ k = k2) (f : Meeting → Meeting) :
    lookupA (storeUpdate st k f) k2 = lookupA st k2 := by
  rw [lookupA_storeUpdate]
  simp [h]

theorem locked_resolves {s : ServerState} {mid : String} (h : InactiveLocked s mid) :
    ∃ m, (getMeetingById s mid).meeting = some m ∧ m.isActive = false := by
  obtain ⟨hv, ⟨ms, hms, hact⟩, hcache⟩ := h
  cases hc : lookupA s.cache mid with
  | some mc => exact ⟨mc, by rw [get_of_cache hv hc], hcache mc hc⟩
  | none => exact ⟨ms, by rw [get_of_store hv hc hms], hact⟩

theorem locked_get {s : ServerState} {mid : String} (h : InactiveLocked s mid)
    (k : String) : InactiveLocked (getMeetingById s k).state mid := by
  rcases get_cases s k with ⟨_, hg⟩ | ⟨_, m, _, hg⟩ | ⟨hv, hc, m, hs, hg⟩ | ⟨_, _, _, hg⟩
  · rw [hg]
    exact h
  · rw [hg]
    exact h
  · rw [hg]
    refine ⟨h.1, h.2.1, ?_⟩
    intro m2 hm2
    rw [lookupA_setA] at hm2
    by_cases hk : k = mid
    · subst hk
      simp at hm2
      obtain ⟨ms, hms, hact⟩ := h.2.1
      rw [hms] at hs
      injection hs with he
      rw [← hm2, ← he]
      exact hact
    · simp [hk] at hm2
      exact h.2.2 m2 hm2
  · rw [hg]
    exact h

theorem locked_meeting_inactive {s : ServerState} {mid : String} {m : Meeting}
    (h : InactiveLocked s mid) (hg : (getMeetingById s mid).meeting = some m) :
    m.isActive = false := by
  obtain ⟨m2, hm2, ha2⟩ := locked_resolves h
  rw [hg] at hm2
  injection hm2 with he
  rw [he]
  exact ha2

theorem locked_shape_other {s : ServerState} {mid k : String} (hk : ¬ k = mid)
    (h : InactiveLocked s mid)
    (cache2 : List (String × Meeting)) (f : Meeting → Meeting)
    (hc2 : ∀ m, lookupA cache2 mid = some m → m.isActive = false) :
    InactiveLocked ⟨cache2, storeUpdate s.store k f⟩ mid := by
  refine ⟨h.1, ?_, hc2⟩
  obtain ⟨m0, hm0, ha0⟩ := h.2.1
  refine ⟨m0, ?_, ha0⟩
  rw [lookupA_storeUpdate_ne _ hk]
  exact hm0

theorem locked_shape_self {s : ServerState} {mid : String}
    (h : InactiveLocked s mid)
    (cache2 : List (String × Meeting)) (f : Meeting → Meeting)
    (hc2 : ∀ m, lookupA cache2 mid = some m → m.isActive = false)
    (hf : ∀ m, m.isActive = false → (f m).isActive = false) :
    InactiveLocked ⟨cache2, storeUpdate s.store mid f⟩ mid := by
  refine ⟨h.1, ?_, hc2⟩
  obtain ⟨m0, hm0, ha0⟩ := h.2.1
  refine ⟨f m0, ?_, hf m0 ha0⟩
  rw [lookupA_storeUpdate_self, hm0]
  rfl

theorem locked_join {s : ServerState} {mid : String} (h : InactiveLocked s mid)
    (d : JoinMeetingData) (now : Nat) :
    InactiveLocked (joinMeeting s d now).2 mid := by
  have hg2 := locked_get h d.meetingId
  cases hg : (getMeetingById s d.meetingId).meeting with
  | none =>
    rw [joinMeeting_none now hg]
    exact hg2
  | some m =>
    cases ha : m.isActive with
    | false =>
      rw [joinMeeting_inactive now hg ha]
      exact hg2
    | true =>
      have hkm : ¬ d.meetingId = mid := by
        intro he
        have hgm : (getMeetingById s mid).meeting = some m := by
          rw [← he]
          exact hg
        have hin := locked_meeting_inactive h hgm
        rw [ha] at hin
        exact Bool.noConfusion hin
      cases hf : m.participants.find? (fun p => p.uid == d.uid) with
      | some q =>
        rw [joinMeeting_rejoin now hg ha hf]
        refine locked_shape_other hkm hg2 _ _ ?_
        intro m2 hm2
        rw [lookupA_setA_ne _ hkm] at hm2
        exact hg2.2.2 m2 hm2
      | none =>
        by_cases hlen : m.maxParticipants ≤ m.participants.length
        · rw [joinMeeting_full now hg ha hf hlen]
          exact hg2
        · rw [joinMeeting_append now hg ha hf hlen]
          refine locked_shape_other hkm hg2 _ _ ?_
          intro m2 hm2
          rw [lookupA_setA_ne _ hkm] at hm2
          exact hg2.2.2 m2 hm2

theorem locked_leave {s : ServerState} {mid : String} (h : InactiveLocked s mid)
    (k sid : String) : InactiveLocked (leaveMeeting s k sid) mid := by
  have hg2 := locked_get h k
  cases hg : (getMeetingById s k).meeting with
  | none =>
    rw [leaveMeeting_none hg]
    exact hg2
  | some m =>
    rw [leaveMeeting_some hg]
    by_cases hk : k = mid
    · subst hk
      have hact : m.isActive = false := locked_meeting_inactive h hg
      have hflag :
          (if (m.participants.filter (fun p => !(p.socketId == sid))).length = 0
            then false else m.isActive) = false := by
        by_cases hz : (m.participants.filter (fun p => !(p.socketId == sid))).length = 0
        · rw [if_pos hz]
        · rw [if_neg hz]
          exact hact
      refine locked_shape_self hg2 _ _ ?_ ?_
      · intro m2 hm2
        by_cases hz : (m.participants.filter (fun p => !(p.socketId == sid))).length = 0
        · rw [if_pos hz, lookupA_eraseA_self] at hm2
          exact Option.noConfusion hm2
        · rw [if_neg hz, lookupA_setA_self] at hm2
          injection hm2 with hm2
          rw [← hm2]
          exact hflag
      · intro m2 _
        exact hflag
    · refine locked_shape_other hk hg2 _ _ ?_
      intro m2 hm2
      by_cases hz : (m.participants.filter (fun p => !(p.socketId == sid))).length = 0
      · rw [if_pos hz, lookupA_eraseA_ne _ hk] at hm2
        exact hg2.2.2 m2 hm2
      · rw [if_neg hz, lookupA_setA_ne _ hk] at hm2
        exact hg2.2.2 m2 hm2

theorem locked_addMessage {s : ServerState} {mid : String} (h : InactiveLocked s mid)
    (k : String) (msg : ChatMessage) :
    InactiveLocked (addMessage s k msg).2 mid := by
  have hg2 := locked_get h k
  cases hg : (getMeetingById s k).meeting with
  | none =>
    rw [addMessage_none msg hg]
    exact hg2
  | some m =>
    rw [addMessage_some msg hg]
    by_cases hk : k = mid
    · subst hk
      have hact : m.isActive = false := locked_meeting_inactive h hg
      refine locked_shape_self hg2 _ _ ?_ (fun m2 hm2 => hm2)
      intro m2 hm2
      rw [lookupA_setA_self] at hm2
      injection hm2 with hm2
      rw [← hm2]
      exact hact
    · refine locked_shape_other hk hg2 _ _ ?_
      intro m2 hm2
      rw [lookupA_setA_ne _ hk] at hm2
      exact hg2.2.2 m2 hm2

theorem locked_end {s : ServerState} {mid : String} (h : InactiveLocked s mid)
    (k uid : String) : InactiveLocked (endMeeting s k uid).2 mid := by
  have hg2 := locked_get h k
  cases hg : (getMeetingById s k).meeting with
  | none =>
    rw [endMeeting_none uid hg]
    exact hg2
  | some m =>
    by_cases hown : m.createdBy = uid
    · rw [endMeeting_ok hg hown]
      by_cases hk : k = mid
      · subst hk
        refine locked_shape_self hg2 _ _ ?_ (fun m2 _ => rfl)
        intro m2 hm2
        rw [lookupA_eraseA_self] at hm2
        exact Option.noConfusion hm2
      · refine locked_shape_other hk hg2 _ _ ?_
        intro m2 hm2
        rw [lookupA_eraseA_ne _ hk] at hm2
        exact hg2.2.2 m2 hm2
    · rw [endMeeting_forbidden hg hown]
      exact hg2

theorem createMeeting_nil (d : MeetingCreateData) (now : Nat) (s : ServerState) :
    createMeeting d now s [] = (none, s) := rfl

theorem createMeeting_cons_hit {s : ServerState} {c : String} {m : Meeting}
    (d : MeetingCreateData) (now : Nat) (rest : List String)
    (hg : (getMeetingById s c).meeting = some m) :
    createMeeting d now s (c :: rest) =
      createMeeting d now (getMeetingById s c).state rest := by
  simp only [createMeeting]
  rw [hg]

theorem createMeeting_cons_free {s : ServerState} {c : String}
    (d : MeetingCreateData) (now : Nat) (rest : List String)
    (hg : (getMeetingById s c).meeting = none) :
    createMeeting d now s (c :: rest) =
      (some ⟨c, d.createdBy, now, [], [], none, true, 10⟩,
        { cache := setA (getMeetingById s c).state.cache c
            ⟨c, d.createdBy, now, [], [], none, true, 10⟩,
          store := setA (getMeetingById s c).state.store c
            ⟨c, d.createdBy, now, [], [], none, true, 10⟩ }) := by
  simp only [createMeeting]
  rw [hg]

theorem locked_create {s : ServerState} {mid : String} (h : InactiveLocked s mid)
    (d : MeetingCreateData) (now : Nat) (cs : List String) :
    InactiveLocked (createMeeting d now s cs).2 mid := by
  induction cs generalizing s with
  | nil => exact h
  | cons c rest ih =>
    have hg2 := locked_get h c
    cases hg : (getMeetingById s c).meeting with
    | some m =>
      rw [createMeeting_cons_hit d now rest hg]
      exact ih hg2
    | none =>
      have hkm : ¬ c = mid := by
        intro he
        obtain ⟨m2, hm2, _⟩ := locked_resolves h
        rw [he, hm2] at hg
        exact Option.noConfusion hg
      rw [createMeeting_cons_free d now rest hg]
      refine ⟨h.1, ?_, ?_⟩
      · obtain ⟨m0, hm0, ha0⟩ := h.2.1
        refine ⟨m0, ?_, ha0⟩
        rw [lookupA_setA_ne _ hkm, get_store_eq]
        exact hm0
      · intro m2 hm2
        rw [lookupA_setA_ne _ hkm] at hm2
        exact hg2.2.2 m2 hm2

theorem locked_summary {s : ServerState} {mid : String} (h : InactiveLocked s mid)
    (k t : String) :
    InactiveLocked
      { s with store := storeUpdate s.store k (fun m => { m with summary := some t }) }
      mid := by
  refine ⟨h.1, ?_, h.2.2⟩
  obtain ⟨m0, hm0, ha0⟩ := h.2.1
  by_cases hk : k = mid
  · subst hk
    refine ⟨{ m0 with summary := some t }, ?_, ha0⟩
    rw [lookupA_storeUpdate]
    simp [hm0]
  · refine ⟨m0, ?_, ha0⟩
    rw [lookupA_storeUpdate]
    simp [hk, hm0]

theorem locked_applyOp {s : ServerState} {mid : String} (h : InactiveLocked s mid)
    (op : Op) : InactiveLocked (applyOp s op) mid := by
  cases op with
  | opJoin d now => exact locked_join h d now
  | opLeave k sid => exact locked_leave h k sid
  | opAddMessage k msg => exact locked_addMessage h k msg
  | opEnd k uid => exact locked_end h k uid
  | opGet k => exact locked_get h k
  | opCreate d now cs => exact locked_create h d now cs
  | opSummaryArrives k t => exact locked_summary h k t

theorem locked_runOps {s : ServerState} {mid : String} (h : InactiveLocked s mid)
    (ops : List Op) : InactiveLocked (runOps s ops) mid := by
  induction ops generalizing s with
  | nil => exact h
  | cons op rest ih => exact ih (locked_applyOp h op)

theorem locked_join_fails {s : ServerState} {mid : String} (h : InactiveLocked s mid)
    (d : JoinMeetingData) (now : Nat) (hd : d.meetingId = mid) :
    (joinMeeting s d now).1 = Except.error "Meeting is no longer active" := by
  obtain ⟨m, hm, ha⟩ := locked_resolves h
  rw [← hd] at hm
  rw [joinMeeting_inactive now hm ha]

theorem matchDigits_iff (n : Nat) (l : List Char) :
    matchDigits n l = true ↔ l.length = n ∧ ∀ c ∈ l, isDigitChar c = true := by
  induction n generalizing l with
  | zero =>
    cases l with
    | nil => simp [matchDigits]
    | cons c cs => simp [matchDigits]
  | succ n ih =>
    cases l with
    | nil => simp [matchDigits]
    | cons c cs =>
      rw [show matchDigits (n + 1) (c :: cs) = (isDigitChar c && matchDigits n cs) from rfl]
      rw [Bool.and_eq_true, ih cs]
      simp [List.forall_mem_cons]
      tauto

theorem jsTrim_data_nil_iff (s : String) :
    (jsTrim s).data = [] ↔ ∀ c ∈ s.data, jsWhitespace c = true := by
  show ((s.data.dropWhile jsWhitespace).reverse.dropWhile jsWhitespace).reverse = [] ↔ _
  rw [List.reverse_eq_nil_iff, List.dropWhile_eq_nil_iff]
  constructor
  · intro h c hc
    rcases List.mem_append.mp
        ((List.takeWhile_append_dropWhile jsWhitespace s.data) ▸ hc) with h1 | h1
    · exact List.mem_takeWhile_imp h1
    · exact h c (List.mem_reverse.mpr h1)
  · intro h c hc
    have hc2 := List.mem_reverse.mp hc
    have hmem : c ∈ s.data := by
      have h2 := List.mem_append_right (List.takeWhile jsWhitespace s.data) hc2
      rw [List.takeWhile_append_dropWhile] at h2
      exact h2
    exact h c hmem

theorem map_id_of_eq {l : List Participant} {f : Participant → Participant}
    (h : ∀ x ∈ l, f x = x) : l.map f = l := by
  conv_rhs => rw [← List.map_id l]
  exact List.map_congr_left h

theorem updFirst_eq_map {l : List Participant} (uid sid : String)
    (h : (l.map Participant.uid).Nodup) :
    updFirstSocket l uid sid = rejoinUpdate l uid sid := by
  induction l with
  | nil => rfl
  | cons p rest ih =>
    rw [List.map_cons, List.nodup_cons] at h
    simp only [updFirstSocket, rejoinUpdate, List.map_cons]
    by_cases hp : p.uid = uid
    · rw [if_pos hp, if_pos hp]
      congr 1
      refine (map_id_of_eq ?_).symm
      intro q hq
      have hne : ¬ q.uid = uid := by
        intro he
        apply h.1
        rw [hp, ← he]
        exact List.mem_map_of_mem Participant.uid hq
      rw [if_neg hne]
    · rw [if_neg hp, if_neg hp]
      have ih2 := ih h.2
      rw [rejoinUpdate] at ih2
      rw [ih2]

theorem leaveMeeting_last {s : ServerState} {mid sid : String} {m : Meeting}
    (hg : (getMeetingById s mid).meeting = some m)
    (hfil : m.participants.filter (fun p => !(p.socketId == sid)) = []) :
    leaveMeeting s mid sid =
      { cache := eraseA (getMeetingById s mid).state.cache mid,
        store := storeUpdate (getMeetingById s mid).state.store mid
          (fun sm => { sm with participants := [], isActive := false }) } := by
  rw [leaveMeeting_some hg, hfil]
  simp

theorem handleJoin_invalid {s : ServerState} {sid : String} {d : JoinEventData}
    {now : Nat}
    (hval : (isValidMeetingId d.meetingId && isValidUserData d.uid d.name) = false) :
    handleJoinMeeting s sid d now =
      ([(EmitTarget.toSelf, SocketEvent.errorEvt "Invalid meeting data")], s) := by
  unfold handleJoinMeeting
  rw [if_pos hval]

theorem handleJoin_error {s : ServerState} {sid : String} {d : JoinEventData}
    {now : Nat} {e : String} {s2 : ServerState}
    (hval : ¬ (isValidMeetingId d.meetingId && isValidUserData d.uid d.name) = false)
    (hj : joinMeeting s ⟨d.meetingId, d.uid, d.name, sid⟩ now = (Except.error e, s2)) :
    handleJoinMeeting s sid d now =
      ([(EmitTarget.toSelf, SocketEvent.joinErrorEvt e)], s2) := by
  unfold handleJoinMeeting
  rw [if_neg hval, hj]

theorem handleJoin_ok {s : ServerState} {sid : String} {d : JoinEventData}
    {now : Nat} {m : Meeting} {s2 : ServerState}
    (hval : ¬ (isValidMeetingId d.meetingId && isValidUserData d.uid d.name) = false)
    (hj : joinMeeting s ⟨d.meetingId, d.uid, d.name, sid⟩ now = (Except.ok m, s2)) :
    handleJoinMeeting s sid d now =
      ([(EmitTarget.toSelf, SocketEvent.joinedMeetingEvt d.meetingId m.participants
          m.messages m.createdBy),
        (EmitTarget.toRoom, SocketEvent.userJoinedEvt d.uid d.name
          m.participants.length)], s2) := by
  unfold handleJoinMeeting
  rw [if_neg hval, hj]

theorem frame_after_participants_update {s : ServerState} {k : String}
    {m : Meeting} (m2 : Meeting) (hg : (getMeetingById s k).meeting = some m)
    (hfr : frameOf m2 = frameOf m) (f : Meeting → Meeting) (mid : String) :
    ((getMeetingById
        ⟨setA (getMeetingById s k).state.cache k m2,
          storeUpdate (getMeetingById s k).state.store k f⟩ mid).meeting).map frameOf =
      ((getMeetingById s mid).meeting).map frameOf := by
  have hv := get_some_valid hg
  by_cases hk : k = mid
  · subst hk
    rw [get_of_cache hv (lookupA_setA_self _ _ _), hg]
    simp [hfr]
  · have h1 : (getMeetingById ⟨setA (getMeetingById s k).state.cache k m2,
        storeUpdate (getMeetingById s k).state.store k f⟩ mid).meeting =
        (getMeetingById (getMeetingById s k).state mid).meeting := by
      apply get_congr
      · exact lookupA_setA_ne _ hk _
      · exact lookupA_storeUpdate_ne _ hk f
    rw [h1, get_after_get]

/-- Claim C7: `isValidMeetingId` accepts a string exactly when it consists
of exactly six ASCII digit characters; every string of a different length,
every string containing a non-digit character, and the empty string are
rejected. -/
theorem claim_C7 (s : String) :
    isValidMeetingId s = true ↔ s.length = 6 ∧ ∀ c ∈ s.data, c.isDigit = true :=
  matchDigits_iff 6 s.data

/-- Concrete instances of claim C7 at accepted and rejected inputs. -/
theorem claim_C7_witness :
    isValidMeetingId "123456" = true ∧ isValidMeetingId "12a456" = false := by
  constructor
  · exact (claim_C7 "123456").mpr (by decide)
  · have h : ¬ isValidMeetingId "12a456" = true := by
      intro h
      have h3 := ((claim_C7 "12a456").mp h).2 'a' (by decide)
      exact absurd h3 (by decide)
    exact Bool.eq_false_iff.mpr h

/-- Claim C8: `isValidMessage` accepts a 1000-character message holding a
non-whitespace character, rejects every message of 1001 or more characters,
and rejects every message consisting entirely of whitespace. -/
theorem claim_C8 (s : String) :
    (s.length = 1000 → (∃ c ∈ s.data, jsWhitespace c = false) →
      isValidMessage s = true) ∧
    (1001 ≤ s.length → isValidMessage s = false) ∧
    ((∀ c ∈ s.data, jsWhitespace c = true) → isValidMessage s = false) := by
  refine ⟨?_, ?_, ?_⟩
  · intro hlen hex
    obtain ⟨c, hc, hcw⟩ := hex
    have h1 : ¬ (jsTrim s).data = [] := by
      intro hnil
      have hw := (jsTrim_data_nil_iff s).mp hnil c hc
      rw [hcw] at hw
      exact Bool.noConfusion hw
    have h2 : 0 < (jsTrim s).length := by
      show 0 < (jsTrim s).data.length
      have : (jsTrim s).data.length ≠ 0 := fun h0 => h1 (List.length_eq_zero.mp h0)
      exact Nat.pos_of_ne_zero this
    simp [isValidMessage, h2, hlen]
  · intro hlen
    have h1 : ¬ s.length ≤ 1000 := by omega
    simp [isValidMessage, h1]
  · intro hws
    have h0 : (jsTrim s).data = [] := (jsTrim_data_nil_iff s).mpr hws
    have h1 : (jsTrim s).length = 0 := by
      show (jsTrim s).data.length = 0
      rw [h0]
      rfl
    simp [isValidMessage, h1]

/-- Concrete instances of claim C8: a 1000-character message is accepted, a
1001-character one and an all-whitespace one are rejected. -/
theorem claim_C8_witness :
    isValidMessage (String.mk (List.replicate 1000 'a')) = true ∧
    isValidMessage (String.mk (List.replicate 1001 'a')) = false ∧
    isValidMessage "   " = false := by
  refine ⟨?_, ?_, ?_⟩
  · exact (claim_C8 (String.mk (List.replicate 1000 'a'))).1 (by decide)
      ⟨'a', by decide, by decide⟩
  · exact (claim_C8 (String.mk (List.replicate 1001 'a'))).2.1 (by decide)
  · exact (claim_C8 "   ").2.2 (by decide)

/-- Claim C9: for every identifier that is not exactly six digits,
`getMeetingById` returns absent while leaving the state (cache included)
unchanged and without reading the durable store. -/
theorem claim_C9 (s : ServerState) (mid : String)
    (hv : isValidMeetingId mid = false) :
    getMeetingById s mid = ⟨none, s, false⟩ :=
  get_of_invalid s hv

/-- Concrete instance of claim C9 at a malformed identifier. -/
theorem claim_C9_witness :
    isValidMeetingId "12345" = false ∧
      getMeetingById sSolo "12345" = ⟨none, sSolo, false⟩ :=
  ⟨by decide, claim_C9 sSolo "12345" (by decide)⟩

/-- Claim C1 (counterexample): after creating meeting 123456 and having its
creator end it, the store still holds the meeting with `isActive = false`,
yet `addMessage` succeeds and appends to its message list, so an inactive
meeting's message sequence is not frozen. -/
theorem claim_C1_counterexample :
    ((getMeetingById c1s2 "123456").meeting).map Meeting.isActive = some false ∧
    (addMessage c1s2 "123456" msgHi).1 = Except.ok () ∧
    ((getMeetingById (addMessage c1s2 "123456" msgHi).2 "123456").meeting).map
        Meeting.messages = some [msgHi] := by
  decide

/-- Claim C1 (amended): once a meeting resolves with `isActive = false`,
`joinMeeting` fails with the inactive error and leaves its participant
list unchanged, but `addMessage` performs no `isActive` check: whenever
the meeting resolves (from the cache or rehydrated from the durable
store), it appends the message even when the meeting is inactive. -/
theorem claim_C1_amended :
    (∀ (s : ServerState) (d : JoinMeetingData) (now : Nat) (m : Meeting),
        (getMeetingById s d.meetingId).meeting = some m → m.isActive = false →
        (joinMeeting s d now).1 = Except.error "Meeting is no longer active" ∧
        ((getMeetingById (joinMeeting s d now).2 d.meetingId).meeting).map
            Meeting.participants = some m.participants) ∧
    (∀ (s : ServerState) (mid : String) (msg : ChatMessage) (m : Meeting),
        (getMeetingById s mid).meeting = some m →
        (addMessage s mid msg).1 = Except.ok () ∧
        ((getMeetingById (addMessage s mid msg).2 mid).meeting).map
            Meeting.messages = some (m.messages ++ [msg])) := by
  constructor
  · intro s d now m hg ha
    have he := joinMeeting_inactive now hg ha
    refine ⟨by rw [he], ?_⟩
    have hst : (joinMeeting s d now).2 = (getMeetingById s d.meetingId).state := by
      rw [he]
    rw [hst, get_some_again hg]
    rfl
  · intro s mid msg m hg
    have he := addMessage_some msg hg
    have hv := get_some_valid hg
    refine ⟨by rw [he], ?_⟩
    rw [he, get_of_cache hv (lookupA_setA_self _ _ _)]
    rfl

/-- Concrete instance of amended claim C1: a join on the inactive meeting
222222 fails and changes nothing, while `addMessage` appends to it. -/
theorem claim_C1_witness :
    ((joinMeeting sInactive ⟨"222222", "dave", "Dave", "sockD"⟩ 5).1 =
        Except.error "Meeting is no longer active" ∧
      ((getMeetingById (joinMeeting sInactive ⟨"222222", "dave", "Dave", "sockD"⟩ 5).2
          "222222").meeting).map Meeting.participants = some mInactive.participants) ∧
    ((addMessage sInactive "222222" msgYo).1 = Except.ok () ∧
      ((getMeetingById (addMessage sInactive "222222" msgYo).2 "222222").meeting).map
          Meeting.messages = some (mInactive.messages ++ [msgYo])) :=
  ⟨claim_C1_amended.1 sInactive ⟨"222222", "dave", "Dave", "sockD"⟩ 5 mInactive
      (by decide) (by decide),
    claim_C1_amended.2 sInactive "222222" msgYo mInactive (by decide)⟩

/-- Claim C2 (counterexample): meeting 654321 was deactivated and evicted
from the cache while its document remains in the store; `addMessage` then
succeeds (instead of failing with NotFound) and the durable store IS
re-queried on the cache miss. -/
theorem claim_C2_counterexample :
    lookupA c2s2.cache "654321" = none ∧
    lookupA c2s2.store "654321" =
      some ⟨"654321", "erin", 0, [], [], none, false, 10⟩ ∧
    (addMessage c2s2 "654321" msgYo).1 = Except.ok () ∧
    (getMeetingById c2s2 "654321").storeRead = true := by
  decide

/-- Claim C2 (amended): `addMessage` fails with NotFound exactly when the
meeting resolves nowhere: a malformed id is rejected without any store
read and with the state unchanged; a valid id missing from both cache and
store fails after querying the store, leaving the state unchanged; a
meeting absent from the cache but still present in the store is
re-queried, rehydrated, and the message is appended even then; and a
cached meeting has the message appended, the full message list persisted,
and the cache refreshed. -/
theorem claim_C2_amended :
    (∀ (s : ServerState) (mid : String) (msg : ChatMessage),
        isValidMeetingId mid = false →
        (addMessage s mid msg).1 = Except.error "Meeting not found" ∧
        (addMessage s mid msg).2 = s ∧ (getMeetingById s mid).storeRead = false) ∧
    (∀ (s : ServerState) (mid : String) (msg : ChatMessage),
        isValidMeetingId mid = true → lookupA s.cache mid = none →
        lookupA s.store mid = none →
        (addMessage s mid msg).1 = Except.error "Meeting not found" ∧
        (addMessage s mid msg).2 = s ∧ (getMeetingById s mid).storeRead = true) ∧
    (∀ (s : ServerState) (mid : String) (msg : ChatMessage) (m : Meeting),
        isValidMeetingId mid = true → lookupA s.cache mid = none →
        lookupA s.store mid = some m →
        (getMeetingById s mid).storeRead = true ∧
        (addMessage s mid msg).1 = Except.ok () ∧
        lookupA (addMessage s mid msg).2.cache mid =
          some { m with messages := m.messages ++ [msg] } ∧
        lookupA (addMessage s mid msg).2.store mid =
          some { m with messages := m.messages ++ [msg] }) ∧
    (∀ (s : ServerState) (mid : String) (msg : ChatMessage) (m sm : Meeting),
        lookupA s.cache mid = some m → lookupA s.store mid = some sm →
        isValidMeetingId mid = true →
        (addMessage s mid msg).1 = Except.ok () ∧
        lookupA (addMessage s mid msg).2.cache mid =
          some { m with messages := m.messages ++ [msg] } ∧
        lookupA (addMessage s mid msg).2.store mid =
          some { sm with messages := m.messages ++ [msg] }) := by
  refine ⟨?_, ?_, ?_, ?_⟩
  · intro s mid msg hv
    have hg0 := get_of_invalid s hv
    have hgm : (getMeetingById s mid).meeting = none := by rw [hg0]
    have he := addMessage_none msg hgm
    refine ⟨by rw [he], ?_, by rw [hg0]⟩
    rw [he, hg0]
  · intro s mid msg hv hc hs
    have hg0 := get_of_miss hv hc hs
    have hgm : (getMeetingById s mid).meeting = none := by rw [hg0]
    have he := addMessage_none msg hgm
    refine ⟨by rw [he], ?_, by rw [hg0]⟩
    rw [he, hg0]
  · intro s mid msg m hv hc hs
    have hg0 := get_of_store hv hc hs
    have hgm : (getMeetingById s mid).meeting = some m := by rw [hg0]
    have he := addMessage_some msg hgm
    refine ⟨by rw [hg0], by rw [he], ?_, ?_⟩
    · rw [he, hg0]
      exact lookupA_setA_self _ _ _
    · rw [he, hg0]
      have h2 := lookupA_storeUpdate_self s.store mid
        (fun sm2 => { sm2 with messages := m.messages ++ [msg] })
      rw [hs] at h2
      exact h2
  · intro s mid msg m sm hc hs hv
    have hg0 := get_of_cache hv hc
    have hgm : (getMeetingById s mid).meeting = some m := by rw [hg0]
    have he := addMessage_some msg hgm
    refine ⟨by rw [he], ?_, ?_⟩
    · rw [he, hg0]
      exact lookupA_setA_self _ _ _
    · rw [he, hg0]
      have h2 := lookupA_storeUpdate_self s.store mid
        (fun sm2 => { sm2 with messages := m.messages ++ [msg] })
      rw [hs] at h2
      exact h2

/-- Concrete instances of amended claim C2: malformed id, id absent from
both cache and store, evicted-but-stored meeting, and cached meeting. -/
theorem claim_C2_witness :
    ((addMessage sSolo "99" msgYo).1 = Except.error "Meeting not found" ∧
      (addMessage sSolo "99" msgYo).2 = sSolo ∧
      (getMeetingById sSolo "99").storeRead = false) ∧
    ((addMessage sSolo "999999" msgYo).1 = Except.error "Meeting not found" ∧
      (addMessage sSolo "999999" msgYo).2 = sSolo ∧
      (getMeetingById sSolo "999999").storeRead = true) ∧
    ((getMeetingById c2s2 "654321").storeRead = true ∧
      (addMessage c2s2 "654321" msgYo).1 = Except.ok () ∧
      lookupA (addMessage c2s2 "654321" msgYo).2.cache "654321" =
        some ⟨"654321", "erin", 0, [], [msgYo], none, false, 10⟩ ∧
      lookupA (addMessage c2s2 "654321" msgYo).2.store "654321" =
        some ⟨"654321", "erin", 0, [], [msgYo], none, false, 10⟩) ∧
    ((addMessage sSolo "111111" msgYo).1 = Except.ok () ∧
      lookupA (addMessage sSolo "111111" msgYo).2.cache "111111" =
        some ⟨"111111", "alice", 0, [pAlice], [msgHi, msgYo], none, true, 10⟩ ∧
      lookupA (addMessage sSolo "111111" msgYo).2.store "111111" =
        some ⟨"111111", "alice", 0, [pAlice], [msgHi, msgYo], none, true, 10⟩) :=
  ⟨claim_C2_amended.1 sSolo "99" msgYo (by decide),
    claim_C2_amended.2.1 sSolo "999999" msgYo (by decide) (by decide) (by decide),
    claim_C2_amended.2.2.1 c2s2 "654321" msgYo
      ⟨"654321", "erin", 0, [], [], none, false, 10⟩ (by decide) (by decide) (by decide),
    claim_C2_amended.2.2.2 sSolo "111111" msgYo mSolo mSolo
      (by decide) (by decide) (by decide)⟩

/-- Claim C3: joining an active meeting that is at its capacity of 10 with
a fresh user identifier fails with the Full error and leaves the
participant list unchanged; joining with a user identifier already present
succeeds, updates exactly that participant's socket id to the new value,
and leaves the participant count and every other participant field
unchanged. -/
theorem claim_C3 :
    (∀ (s : ServerState) (d : JoinMeetingData) (now : Nat) (m : Meeting),
        (getMeetingById s d.meetingId).meeting = some m →
        m.isActive = true → m.maxParticipants = 10 → m.participants.length = 10 →
        (∀ p ∈ m.participants, ¬ p.uid = d.uid) →
        (joinMeeting s d now).1 = Except.error (fullErrorMsg 10) ∧
        ((getMeetingById (joinMeeting s d now).2 d.meetingId).meeting).map
            Meeting.participants = some m.participants) ∧
    (∀ (s : ServerState) (d : JoinMeetingData) (now : Nat) (m : Meeting)
        (q : Participant),
        (getMeetingById s d.meetingId).meeting = some m →
        m.isActive = true → q ∈ m.participants → q.uid = d.uid →
        (m.participants.map Participant.uid).Nodup →
        (joinMeeting s d now).1 =
          Except.ok { m with participants := rejoinUpdate m.participants d.uid d.socketId } ∧
        ((getMeetingById (joinMeeting s d now).2 d.meetingId).meeting).map
            Meeting.participants =
          some (rejoinUpdate m.participants d.uid d.socketId) ∧
        (rejoinUpdate m.participants d.uid d.socketId).length
          = m.participants.length) := by
  constructor
  · intro s d now m hg ha hmax hlen hno
    have hf : m.participants.find? (fun p => p.uid == d.uid) = none := by
      rw [List.find?_eq_none]
      intro p hp
      simp only [beq_iff_eq]
      exact hno p hp
    have hle : m.maxParticipants ≤ m.participants.length := by rw [hmax, hlen]
    have he := joinMeeting_full now hg ha hf hle
    rw [hmax] at he
    refine ⟨by rw [he], ?_⟩
    have hst : (joinMeeting s d now).2 = (getMeetingById s d.meetingId).state := by
      rw [he]
    rw [hst, get_some_again hg]
    rfl
  · intro s d now m q hg ha hq hquid hnodup
    have hf : ∃ r, m.participants.find? (fun p => p.uid == d.uid) = some r := by
      cases hfind : m.participants.find? (fun p => p.uid == d.uid) with
      | some r => exact ⟨r, rfl⟩
      | none =>
        have hx := List.find?_eq_none.mp hfind q hq
        simp [hquid] at hx
    obtain ⟨r, hfind⟩ := hf
    have he := joinMeeting_rejoin now hg ha hfind
    have hupd := updFirst_eq_map d.uid d.socketId hnodup
    have hv := get_some_valid hg
    refine ⟨?_, ?_, by simp [rejoinUpdate]⟩
    · rw [he, hupd]
    · rw [he, get_of_cache hv (lookupA_setA_self _ _ _), hupd]
      rfl

/-- Concrete instances of claim C3: an 11th distinct user is rejected from
the full meeting 333333, and a rejoin by u3 with a new socket id updates
only u3's socket id. -/
theorem claim_C3_witness :
    ((joinMeeting sFull ⟨"333333", "u10", "n10", "s10"⟩ 3).1 =
        Except.error (fullErrorMsg 10) ∧
      ((getMeetingById (joinMeeting sFull ⟨"333333", "u10", "n10", "s10"⟩ 3).2
          "333333").meeting).map Meeting.participants = some mFull.participants) ∧
    ((joinMeeting sFull ⟨"333333", "u3", "n3", "sNew"⟩ 4).1 =
        Except.ok { mFull with participants := rejoinUpdate mFull.participants "u3" "sNew" } ∧
      ((getMeetingById (joinMeeting sFull ⟨"333333", "u3", "n3", "sNew"⟩ 4).2
          "333333").meeting).map Meeting.participants =
        some (rejoinUpdate mFull.participants "u3" "sNew") ∧
      (rejoinUpdate mFull.participants "u3" "sNew").length
        = mFull.participants.length) :=
  ⟨claim_C3.1 sFull ⟨"333333", "u10", "n10", "s10"⟩ 3 mFull (by decide) (by decide)
      (by decide) (by decide) (by decide),
    claim_C3.2 sFull ⟨"333333", "u3", "n3", "sNew"⟩ 4 mFull ⟨"u3", "n3", "s3", 0⟩
      (by decide) (by decide) (by decide) (by decide) (by decide)⟩

/-- Claim C4: when a meeting's only participant leaves by its socket id,
the participant list empties and `isActive` becomes false, and every join
attempted on that meeting after any further sequence of registry
operations fails with the inactive error. -/
theorem claim_C4 (s : ServerState) (mid : String) (m : Meeting) (p : Participant)
    (hg : (getMeetingById s mid).meeting = some m)
    (hp : m.participants = [p])
    (hsto : ∃ sm, lookupA s.store mid = some sm) :
    ((getMeetingById (leaveMeeting s mid p.socketId) mid).meeting).map
        Meeting.participants = some [] ∧
    ((getMeetingById (leaveMeeting s mid p.socketId) mid).meeting).map
        Meeting.isActive = some false ∧
    ∀ (ops : List Op) (d : JoinMeetingData) (now : Nat), d.meetingId = mid →
      (joinMeeting (runOps (leaveMeeting s mid p.socketId) ops) d now).1 =
        Except.error "Meeting is no longer active" := by
  obtain ⟨sm, hsm⟩ := hsto
  have hv := get_some_valid hg
  have hfilter : m.participants.filter (fun q => !(q.socketId == p.socketId)) = [] := by
    rw [hp]
    simp
  have hL := leaveMeeting_last hg hfilter
  have hcache : lookupA (leaveMeeting s mid p.socketId).cache mid = none := by
    rw [hL]
    exact lookupA_eraseA_self _ _
  have hstore : lookupA (leaveMeeting s mid p.socketId).store mid =
      some { sm with participants := [], isActive := false } := by
    have h3 : lookupA (getMeetingById s mid).state.store mid = some sm := by
      rw [get_store_eq]
      exact hsm
    have h2 := lookupA_storeUpdate_self (getMeetingById s mid).state.store mid
      (fun sm2 => { sm2 with participants := [], isActive := false })
    rw [h3] at h2
    rw [hL]
    exact h2
  have hget2 := get_of_store hv hcache hstore
  have hlock : InactiveLocked (leaveMeeting s mid p.socketId) mid := by
    refine ⟨hv, ⟨_, hstore, rfl⟩, ?_⟩
    intro m2 hm2
    rw [hcache] at hm2
    exact Option.noConfusion hm2
  refine ⟨?_, ?_, ?_⟩
  · rw [hget2]
    rfl
  · rw [hget2]
    rfl
  · intro ops d now hd
    exact locked_join_fails (locked_runOps hlock ops) d now hd

/-- Concrete instance of claim C4: alice leaves the single-participant
meeting 111111; it empties, deactivates, and a later join fails after
further operations run. -/
theorem claim_C4_witness :
    ((getMeetingById (leaveMeeting sSolo "111111" pAlice.socketId) "111111").meeting).map
        Meeting.participants = some [] ∧
    ((getMeetingById (leaveMeeting sSolo "111111" pAlice.socketId) "111111").meeting).map
        Meeting.isActive = some false ∧
    (joinMeeting (runOps (leaveMeeting sSolo "111111" pAlice.socketId)
        [Op.opAddMessage "111111" msgYo, Op.opGet "111111", Op.opEnd "111111" "alice"])
      ⟨"111111", "bob", "Bob", "sockB"⟩ 7).1 =
        Except.error "Meeting is no longer active" := by
  have h := claim_C4 sSolo "111111" mSolo pAlice (by decide) (by decide)
    ⟨mSolo, by decide⟩
  exact ⟨h.1, h.2.1, h.2.2
    [Op.opAddMessage "111111" msgYo, Op.opGet "111111", Op.opEnd "111111" "alice"]
    ⟨"111111", "bob", "Bob", "sockB"⟩ 7 rfl⟩

/-- Claim C5: `endMeeting` fails with NotFound when the meeting resolves
nowhere; fails with Forbidden when the requester is not the creator,
leaving the meeting state and the store unchanged; and otherwise succeeds,
sets `isActive` to false, evicts the meeting from the cache, and persists
the change to the store. -/
theorem claim_C5 :
    (∀ (s : ServerState) (mid uid : String),
        (getMeetingById s mid).meeting = none →
        (endMeeting s mid uid).1 = Except.error "Meeting not found" ∧
        (endMeeting s mid uid).2 = s) ∧
    (∀ (s : ServerState) (mid uid : String) (m : Meeting),
        (getMeetingById s mid).meeting = some m → ¬ m.createdBy = uid →
        (endMeeting s mid uid).1 = Except.error "Only the host can end the meeting" ∧
        (getMeetingById (endMeeting s mid uid).2 mid).meeting = some m ∧
        (endMeeting s mid uid).2.store = s.store) ∧
    (∀ (s : ServerState) (mid uid : String) (m sm : Meeting),
        (getMeetingById s mid).meeting = some m → m.createdBy = uid →
        lookupA s.store mid = some sm →
        (endMeeting s mid uid).1 = Except.ok () ∧
        lookupA (endMeeting s mid uid).2.cache mid = none ∧
        lookupA (endMeeting s mid uid).2.store mid =
          some { sm with isActive := false } ∧
        ((getMeetingById (endMeeting s mid uid).2 mid).meeting).map Meeting.isActive
          = some false) := by
  refine ⟨?_, ?_, ?_⟩
  · intro s mid uid hg
    have he := endMeeting_none uid hg
    refine ⟨by rw [he], ?_⟩
    rw [he, get_none_state hg]
  · intro s mid uid m hg hown
    have he := endMeeting_forbidden hg hown
    have hst : (endMeeting s mid uid).2 = (getMeetingById s mid).state := by rw [he]
    refine ⟨by rw [he], ?_, ?_⟩
    · rw [hst, get_some_again hg]
    · rw [hst, get_store_eq]
  · intro s mid uid m sm hg hown hsm
    have hv := get_some_valid hg
    have he := endMeeting_ok hg hown
    have hcache : lookupA (endMeeting s mid uid).2.cache mid = none := by
      rw [he]
      exact lookupA_eraseA_self _ _
    have hstore : lookupA (endMeeting s mid uid).2.store mid =
        some { sm with isActive := false } := by
      have h3 : lookupA (getMeetingById s mid).state.store mid = some sm := by
        rw [get_store_eq]
        exact hsm
      have h2 := lookupA_storeUpdate_self (getMeetingById s mid).state.store mid
        (fun sm2 => { sm2 with isActive := false })
      rw [h3] at h2
      rw [he]
      exact h2
    refine ⟨by rw [he], hcache, hstore, ?_⟩
    rw [get_of_store hv hcache hstore]
    rfl

/-- Concrete instances of claim C5: ending a missing meeting, ending as a
non-creator, and a successful end by the creator. -/
theorem claim_C5_witness :
    ((endMeeting sOwned "999999" "alice").1 = Except.error "Meeting not found" ∧
      (endMeeting sOwned "999999" "alice").2 = sOwned) ∧
    ((endMeeting sOwned "444444" "bob").1 =
        Except.error "Only the host can end the meeting" ∧
      (getMeetingById (endMeeting sOwned "444444" "bob").2 "444444").meeting =
        some mOwned ∧
      (endMeeting sOwned "444444" "bob").2.store = sOwned.store) ∧
    ((endMeeting sOwned "444444" "alice").1 = Except.ok () ∧
      lookupA (endMeeting sOwned "444444" "alice").2.cache "444444" = none ∧
      lookupA (endMeeting sOwned "444444" "alice").2.store "444444" =
        some { mOwned with isActive := false } ∧
      ((getMeetingById (endMeeting sOwned "444444" "alice").2 "444444").meeting).map
          Meeting.isActive = some false) :=
  ⟨claim_C5.1 sOwned "999999" "alice" (by decide),
    claim_C5.2.1 sOwned "444444" "bob" mOwned (by decide) (by decide),
    claim_C5.2.2 sOwned "444444" "alice" mOwned mOwned (by decide) (by decide)
      (by decide)⟩

/-- Claim C6 (counterexample): a join-meeting event with a malformed
meeting id makes the handler reply to the joining connection with a plain
error event, which is neither joined-meeting nor join-error. -/
theorem claim_C6_counterexample :
    (selfEvents (handleJoinMeeting ⟨[], []⟩ "sock1" ⟨"abc", "u1", "Uma"⟩ 0).1).all
        isJoinReply = false := by
  decide

/-- Claim C6 (amended): every inbound join-meeting event produces exactly
one reply to the joining connection: a plain error event carrying
"Invalid meeting data" when input validation fails, a join-error event
when `joinMeeting` fails, or a joined-meeting event on success together
with a user-joined broadcast to the rest of the room. -/
theorem claim_C6_amended (s : ServerState) (sid : String) (d : JoinEventData)
    (now : Nat) :
    (selfEvents (handleJoinMeeting s sid d now).1 =
        [SocketEvent.errorEvt "Invalid meeting data"] ∧
      (isValidMeetingId d.meetingId && isValidUserData d.uid d.name) = false) ∨
    (∃ e, selfEvents (handleJoinMeeting s sid d now).1 =
        [SocketEvent.joinErrorEvt e]) ∨
    (∃ ps ms cb, (handleJoinMeeting s sid d now).1 =
        [(EmitTarget.toSelf, SocketEvent.joinedMeetingEvt d.meetingId ps ms cb),
          (EmitTarget.toRoom, SocketEvent.userJoinedEvt d.uid d.name ps.length)] ∧
      selfEvents (handleJoinMeeting s sid d now).1 =
        [SocketEvent.joinedMeetingEvt d.meetingId ps ms cb]) := by
  by_cases hval : (isValidMeetingId d.meetingId && isValidUserData d.uid d.name) = false
  · left
    refine ⟨?_, hval⟩
    rw [handleJoin_invalid hval]
    rfl
  · cases hj : joinMeeting s ⟨d.meetingId, d.uid, d.name, sid⟩ now with
    | mk r s2 =>
      cases r with
      | error e =>
        right
        left
        refine ⟨e, ?_⟩
        rw [handleJoin_error hval hj]
        rfl
      | ok m =>
        right
        right
        refine ⟨m.participants, m.messages, m.createdBy, ?_, ?_⟩
        · rw [handleJoin_ok hval hj]
        · rw [handleJoin_ok hval hj]
          rfl

/-- Claim C10: `joinMeeting` modifies only the participants sequence: for
every state, join input, outcome, and meeting id, the meeting resolved
after the call has the same messages, createdBy, createdAt,
maxParticipants, isActive and summary fields as the one resolved before. -/
theorem claim_C10 (s : ServerState) (d : JoinMeetingData) (now : Nat) (mid : String) :
    ((getMeetingById (joinMeeting s d now).2 mid).meeting).map frameOf =
      ((getMeetingById s mid).meeting).map frameOf := by
  cases hg : (getMeetingById s d.meetingId).meeting with
  | none =>
    have he := joinMeeting_none now hg
    have hst : (joinMeeting s d now).2 = (getMeetingById s d.meetingId).state := by
      rw [he]
    rw [hst, get_after_get]
  | some m =>
    cases ha : m.isActive with
    | false =>
      have he := joinMeeting_inactive now hg ha
      have hst : (joinMeeting s d now).2 = (getMeetingById s d.meetingId).state := by
        rw [he]
      rw [hst, get_after_get]
    | true =>
      cases hf : m.participants.find? (fun p => p.uid == d.uid) with
      | some q =>
        have he := joinMeeting_rejoin now hg ha hf
        have hst : (joinMeeting s d now).2 =
            ⟨setA (getMeetingById s d.meetingId).state.cache d.meetingId
                { m with participants := updFirstSocket m.participants d.uid d.socketId },
              storeUpdate (getMeetingById s d.meetingId).state.store d.meetingId
                (fun sm => { sm with
                  participants := updFirstSocket m.participants d.uid d.socketId })⟩ := by
          rw [he]
        rw [hst]
        exact frame_after_participants_update
          { m with participants := updFirstSocket m.participants d.uid d.socketId }
          hg rfl _ mid
      | none =>
        by_cases hlen : m.maxParticipants ≤ m.participants.length
        · have he := joinMeeting_full now hg ha hf hlen
          have hst : (joinMeeting s d now).2 = (getMeetingById s d.meetingId).state := by
            rw [he]
          rw [hst, get_after_get]
        · have he := joinMeeting_append now hg ha hf hlen
          have hst : (joinMeeting s d now).2 =
              ⟨setA (getMeetingById s d.meetingId).state.cache d.meetingId
                  { m with participants :=
                    m.participants ++ [⟨d.uid, d.name, d.socketId, now⟩] },
                storeUpdate (getMeetingById s d.meetingId).state.store d.meetingId
                  (fun sm => { sm with participants :=
                    m.participants ++ [⟨d.uid, d.name, d.socketId, now⟩] })⟩ := by
            rw [he]
          rw [hst]
          exact frame_after_participants_update
            { m with participants :=
              m.participants ++ [⟨d.uid, d.name, d.socketId, now⟩] }
            hg rfl _ mid

end JoinUsChat
